import Mathlib

/-!
Verification development for the swiss-transport-app backend.

The Python backend (src/backend) is shallowly embedded below:

* coordinates and money-free numeric values are rationals;
* a local time of day is a natural number of seconds since midnight;
* Python Optional values are Option, Python dict values are association
  lists, Python sets of strings are lists queried by membership;
* the module-level TTL caches of realtime_client.py and traffic_client.py
  become explicit state records threaded through the fetch functions, with
  the current monotonic time and the outcome of the upstream HTTP exchange
  (some records on success, none on timeout / HTTP error / parse failure /
  any other exception absorbed by the except blocks) passed as arguments;
  the GTFS-RT feed has its own outcome type whose failure case carries the
  delays its bare parse loop had accumulated before the exception;
* the transcendental haversine_distance function of traffic_client.py is
  kept abstract: every definition and theorem about proximity matching is
  parameterised over the distance function dist, so the results hold for
  the concrete haversine formula (Earth radius 6371 km) in particular.

Integer conversions mirror Python exactly: pyInt is the builtin int()
(truncation toward zero) and pyRound is the builtin round() (banker
rounding, halves to even).
-/

/-- Python builtin int() applied to a rational: truncation toward zero. -/
def pyInt (q : ℚ) : ℤ := if 0 ≤ q then ⌊q⌋ else ⌈q⌉

/-- Python builtin round() applied to a rational: round half to even. -/
def pyRound (q : ℚ) : ℤ :=
  if q - ⌊q⌋ < 1/2 then ⌊q⌋
  else if 1/2 < q - ⌊q⌋ then ⌊q⌋ + 1
  else if ⌊q⌋ % 2 = 0 then ⌊q⌋ else ⌊q⌋ + 1

/-- Python round(x, 2): rounding to two decimal places. -/
def pyRound2 (q : ℚ) : ℚ := (pyRound (q * 100) : ℚ) / 100

/-- Whether the character list n occurs at the head of h. -/
def beginsWith : List Char → List Char → Bool
  | _, [] => true
  | [], _ :: _ => false
  | a :: as, b :: bs => a = b && beginsWith as bs

/-- Whether the character list n occurs anywhere inside h. -/
def hasSub (h n : List Char) : Bool :=
  beginsWith h n ||
    match h with
    | [] => false
    | _ :: t => hasSub t n

/-- Python substring membership test: needle in hay. -/
def pyIn (needle hay : String) : Bool := hasSub hay.toList needle.toList

/-- Python str.lower(), as a character-wise map (the inputs concerned are
plain ASCII words). -/
def pyLower (s : String) : String := String.mk (s.data.map Char.toLower)

/-- Python str.upper(), as a character-wise map. -/
def pyUpper (s : String) : String := String.mk (s.data.map Char.toUpper)

/-- Python tuple unpacking a, b = l of a list into two names: succeeds
exactly when the list has two elements, otherwise ValueError. -/
def pyUnpack2 {α : Type} (l : List α) : Option (α × α) :=
  match l with
  | [a, b] => some (a, b)
  | _ => none

/-- Pythonic truthiness of an Optional[float] coordinate: None and 0.0 are
falsy, every other value is truthy. -/
def coordTruthy : Option ℚ → Bool
  | none => false
  | some x => decide (x ≠ 0)

/-! ## Data model (models.py), restricted to the fields the core reads.

Wire-only fields (platform, estimated_time, operator, timestamps of
disruptions and situations, location_description) are omitted: no modelled
operation reads them. -/

/-- Transport mode enumeration (models.py TransportMode). -/
inductive TransportMode
  | rail | bus | tram | metro | funicular | ferry | cableway | walk | unknown
deriving DecidableEq, Repr

/-- A stop point of a leg (models.py StopPoint); scheduled_time is the
local time of day of the scheduled departure, in seconds. -/
structure StopPoint where
  id : String
  name : String
  scheduled_time : Nat
  latitude : Option ℚ
  longitude : Option ℚ
deriving DecidableEq, Repr

/-- A single leg of a trip (models.py TripLeg). -/
structure TripLeg where
  leg_id : String
  mode : TransportMode
  line_number : Option String
  origin : StopPoint
  destination : StopPoint
  intermediate_stops : List StopPoint
  duration_minutes : Nat
deriving DecidableEq, Repr

/-- A road traffic situation (models.py TrafficSituation). -/
structure TrafficSituation where
  id : String
  description : String
  latitude : Option ℚ
  longitude : Option ℚ
  severity : String
deriving DecidableEq, Repr

/-- A traffic light intersection status (models.py TrafficLightStatus). -/
structure TrafficLightStatus where
  intersection_id : String
  area_id : String
  name : Option String
  level_of_service : Option String
  spillback_length_meters : Option ℚ
  green_percentage : Option ℚ
  latitude : Option ℚ
  longitude : Option ℚ
deriving DecidableEq, Repr

/-- Disruption severity (models.py DisruptionSeverity). -/
inductive DisruptionSeverity
  | info | warning | severe
deriving DecidableEq, Repr

/-- A public transport disruption (models.py Disruption). -/
structure Disruption where
  id : String
  title : String
  description : String
  severity : DisruptionSeverity
  affected_lines : List String
  affected_stops : List String
  is_active : Bool
deriving DecidableEq, Repr

/-- A delay prediction (models.py DelayPrediction); prediction_time is
omitted (it is now, never read back). -/
structure DelayPrediction where
  predicted_delay_minutes : Nat
  confidence_score : ℚ
  factors : List String
  is_peak_hour : Bool
deriving DecidableEq, Repr

/-- A server-sent event (models.py SSEEvent); the payload dict is kept as
an opaque association list of strings. -/
structure SSEEvent where
  event_type : String
  data : List (String × String)
deriving DecidableEq, Repr

/-! ## traffic_client.py -/

/-- Inner loop of get_traffic_near_route for a situation: the coordinate
truthiness guard (if sit.latitude and sit.longitude) followed by the scan
over the route points with inclusive radius comparison and first-match
break.  dist abstracts haversine_distance. -/
def situationNearRoute (dist : ℚ → ℚ → ℚ → ℚ → ℚ) (route_points : List (ℚ × ℚ))
    (radius_km : ℚ) (s : TrafficSituation) : Bool :=
  coordTruthy s.latitude && coordTruthy s.longitude &&
    route_points.any (fun p =>
      decide (dist (s.latitude.getD 0) (s.longitude.getD 0) p.1 p.2 ≤ radius_km))

/-- Inner loop of get_traffic_near_route for a traffic light, same shape
as the situation loop. -/
def lightNearRoute (dist : ℚ → ℚ → ℚ → ℚ → ℚ) (route_points : List (ℚ × ℚ))
    (radius_km : ℚ) (l : TrafficLightStatus) : Bool :=
  coordTruthy l.latitude && coordTruthy l.longitude &&
    route_points.any (fun p =>
      decide (dist (l.latitude.getD 0) (l.longitude.getD 0) p.1 p.2 ≤ radius_km))

/-- Proximity matcher get_traffic_near_route (traffic_client.py 265-290).
The two fetched feeds are passed in as the lists the in-process caches
hold; appending matches in input order with break equals List.filter. -/
def get_traffic_near_route (dist : ℚ → ℚ → ℚ → ℚ → ℚ)
    (situations : List TrafficSituation) (lights : List TrafficLightStatus)
    (route_points : List (ℚ × ℚ)) (radius_km : ℚ) :
    List TrafficSituation × List TrafficLightStatus :=
  (situations.filter (situationNearRoute dist route_points radius_km),
   lights.filter (lightNearRoute dist route_points radius_km))

/-- State of the module-level TTLCache _traffic_situations_cache: at most
one entry under the key "situations", stored with its insertion time.
traffic_client.py keeps no availability flag for this feed. -/
structure TrafficSitState where
  cache : Option (List TrafficSituation × Nat)
deriving DecidableEq, Repr

/-- Whether a TTL cache entry is still live at time now (cachetools
TTLCache semantics: an entry inserted at t expires once t + ttl ≤ now). -/
def ttlLive {α : Type} (c : Option (α × Nat)) (now ttl : Nat) : Bool :=
  match c with
  | some (_, t) => decide (now < t + ttl)
  | none => false

/-- Body of fetch_traffic_situations past the cache check: the HTTP
exchange and DATEX II parse.  outcome is some records when the request and
parse succeed (records already truncated and filtered as in the source),
none when any exception is raised; the except block logs and falls through
to return the local accumulator, which is empty on failure. -/
def trafficSitFresh (s : TrafficSitState) (now : Nat)
    (outcome : Option (List TrafficSituation)) :
    List TrafficSituation × TrafficSitState :=
  match outcome with
  | some recs => (recs, { cache := some (recs, now) })
  | none => ([], s)

/-- fetch_traffic_situations (traffic_client.py 43-137) with
CACHE_TTL_TRAFFIC = 60.  Note the return type: a bare record list, with no
availability flag, unlike the realtime_client adapters. -/
def fetch_traffic_situations (s : TrafficSitState) (now : Nat)
    (outcome : Option (List TrafficSituation)) :
    List TrafficSituation × TrafficSitState :=
  match s.cache with
  | some (v, t) =>
      if now < t + 60 then (v, s)
      else trafficSitFresh s now outcome
  | none => trafficSitFresh s now outcome

/-! ## realtime_client.py -/

/-- State of realtime_client.py for the SIRI-SX feed: the TTLCache entry
_disruptions_cache (ttl 30), the module global _siri_sx_available, and
whether OTD_SIRI_SX_API_KEY is configured. -/
structure SiriState where
  cache : Option (List Disruption × Nat)
  available : Bool
  apiKey : Bool
deriving DecidableEq, Repr

/-- Body of fetch_siri_sx_disruptions past the cache check
(realtime_client.py 113-211): missing credential short-circuits to
([], False); a successful exchange stores the parsed records and sets the
availability flag; any exception sets the flag false and returns the local
accumulator, which is empty on failure. -/
def siriFresh (s : SiriState) (now : Nat) (outcome : Option (List Disruption)) :
    (List Disruption × Bool) × SiriState :=
  if s.apiKey = false then (([], false), { s with available := false })
  else
    match outcome with
    | some recs =>
        ((recs, true), { cache := some (recs, now), available := true, apiKey := s.apiKey })
    | none => (([], false), { s with available := false })

/-- fetch_siri_sx_disruptions (realtime_client.py 103-211) with
CACHE_TTL_DISRUPTIONS = 30. -/
def fetch_siri_sx_disruptions (s : SiriState) (now : Nat)
    (outcome : Option (List Disruption)) :
    (List Disruption × Bool) × SiriState :=
  match s.cache with
  | some (v, t) =>
      if now < t + 30 then ((v, s.available), s)
      else siriFresh s now outcome
  | none => siriFresh s now outcome

/-- State of realtime_client.py for the GTFS-RT feed: _delays_cache
(ttl 60), _gtfs_rt_available, and whether OTD_GTFSRT_API_KEY is set.
The delays dict is an association list from trip id to delay minutes. -/
structure GtfsState where
  cache : Option (List (String × ℤ) × Nat)
  available : Bool
  apiKey : Bool
deriving DecidableEq, Repr

/-- Outcome of the GTFS-RT exchange and parse loop (realtime_client.py
62-100).  Unlike the SIRI-SX parse, whose per-situation errors are
absorbed by an inner try/continue, the GTFS parse loop runs bare inside
the outer try and accumulates into the local delays dict; the except
blocks fall through to return that local accumulator.  So a success
carries the fully parsed dict, and a failure (timeout, HTTP error,
exception anywhere in the parse) carries whatever the loop had
accumulated when the exception was raised: empty for transport errors,
possibly a non-empty partial dict for a mid-loop parse error. -/
inductive GtfsOutcome
  | success (recs : List (String × ℤ))
  | failure (acc : List (String × ℤ))
deriving DecidableEq, Repr

/-- Body of fetch_gtfs_rt_delays past the cache check
(realtime_client.py 51-100): the missing credential short-circuits to
([], False); a success caches the parsed dict and sets the flag; a
failure sets the flag false and returns the accumulator of the failed
attempt, without touching the cache. -/
def gtfsFresh (s : GtfsState) (now : Nat) (outcome : GtfsOutcome) :
    (List (String × ℤ) × Bool) × GtfsState :=
  if s.apiKey = false then (([], false), { s with available := false })
  else
    match outcome with
    | .success recs =>
        ((recs, true), { cache := some (recs, now), available := true, apiKey := s.apiKey })
    | .failure acc => ((acc, false), { s with available := false })

/-- fetch_gtfs_rt_delays (realtime_client.py 38-100). -/
def fetch_gtfs_rt_delays (s : GtfsState) (now : Nat)
    (outcome : GtfsOutcome) :
    (List (String × ℤ) × Bool) × GtfsState :=
  match s.cache with
  | some (v, t) =>
      if now < t + 60 then ((v, s.available), s)
      else gtfsFresh s now outcome
  | none => gtfsFresh s now outcome

/-- Nonemptiness of the intersection of two Python string sets built from
lists: set(a) and set(b) share an element. -/
def listIntersects (a b : List String) : Bool :=
  a.any (fun x => b.contains x)

/-- Relevance filter get_disruptions_for_route (realtime_client.py
214-226), applied to the disruption list the SIRI-SX fetch returned. -/
def get_disruptions_for_route (all_disruptions : List Disruption)
    (stop_ids line_refs : List String) : List Disruption :=
  all_disruptions.filter (fun d =>
    listIntersects d.affected_stops stop_ids || listIntersects d.affected_lines line_refs)

/-! ## prediction_engine.py

The RULES and CONFIDENCE heuristic tables, the rule helpers, and
predict_delay_for_leg.  The source computes one pass over the matched
signals, accumulating delay, confidence and factor strings together; the
embedding factors that pass into matchedTraffic, accumulatedDelay,
confidencePre / confidenceFinal and factorsAll, each faithful to the order
of the corresponding source lines, and reassembles them in
predict_delay_for_leg. -/

namespace RULES

def situation_severe : ℤ := 8

def situation_moderate : ℤ := 4

def situation_minor : ℤ := 2

def los_f : ℤ := 6

def los_e : ℤ := 4

def los_d : ℤ := 2

def los_c : ℤ := 1

def los_ab : ℤ := 0

def spillback_per_100m : ℤ := 1

def peak_multiplier : ℚ := 3/2

def base_bus : ℚ := 1

def base_tram : ℚ := 1/2

end RULES

namespace CONFIDENCE

def base : ℚ := 7/10

def with_traffic_data : ℚ := 3/20

def with_light_data : ℚ := 1/10

def peak_hour_penalty : ℚ := -(1/10)

def no_data_penalty : ℚ := -(3/10)

end CONFIDENCE

/-- Peak hour test is_peak_hour (prediction_engine.py 69-73): 5:45-7:00
and 16:30-18:00, both boundaries inclusive, on the time of day of the
given instant, here in seconds since midnight. -/
def is_peak_hour (t : Nat) : Bool :=
  decide ((20700 ≤ t ∧ t ≤ 25200) ∨ (59400 ≤ t ∧ t ≤ 64800))

/-- get_los_delay (prediction_engine.py 76-91): None and the empty string
are falsy and give 0; otherwise the letter is uppercased and graded, with
everything below C (including A, B and garbage) falling to los_ab = 0. -/
def get_los_delay (los : Option String) : ℤ :=
  match los with
  | none => 0
  | some s =>
      if s = "" then 0
      else
        let u := pyUpper s
        if u = "F" then RULES.los_f
        else if u = "E" then RULES.los_e
        else if u = "D" then RULES.los_d
        else if u = "C" then RULES.los_c
        else RULES.los_ab

/-- get_situation_delay (prediction_engine.py 94-102): substring buckets
on the lowercased severity text, severe/danger first, then
moderate/normal, everything else minor. -/
def get_situation_delay (severity : String) : ℤ :=
  let s := pyLower severity
  if pyIn "severe" s || pyIn "danger" s then RULES.situation_severe
  else if pyIn "moderate" s || pyIn "normal" s then RULES.situation_moderate
  else RULES.situation_minor

/-- get_spillback_delay (prediction_engine.py 105-109): None, 0.0 (falsy)
and nonpositive lengths give 0; otherwise int() of length / 100 times the
per-100m rule. -/
def get_spillback_delay (spillback_meters : Option ℚ) : ℤ :=
  match spillback_meters with
  | none => 0
  | some v =>
      if v = 0 then 0
      else if v ≤ 0 then 0
      else pyInt ((v / 100) * (RULES.spillback_per_100m : ℚ))

/-- Route point contributed by one stop (prediction_engine.py 138-146):
the stop is used only when latitude and longitude are both truthy, which
excludes None and exact 0.0. -/
def stopRoutePoint (sp : StopPoint) : Option (ℚ × ℚ) :=
  if coordTruthy sp.latitude && coordTruthy sp.longitude then
    some (sp.latitude.getD 0, sp.longitude.getD 0)
  else none

/-- Route points of a leg in source order: origin, intermediate stops,
destination (prediction_engine.py 135-146). -/
def collectRoutePoints (leg : TripLeg) : List (ℚ × ℚ) :=
  (stopRoutePoint leg.origin).toList
    ++ leg.intermediate_stops.filterMap stopRoutePoint
    ++ (stopRoutePoint leg.destination).toList

/-- Matched signals used by the prediction (prediction_engine.py 161-164):
no lookup happens without route points, a lookup error contributes no
signals, otherwise get_traffic_near_route with radius_km = 0.3.  cs and cl
are the situation and light lists the traffic feeds currently hold, and
err says whether the lookup raised. -/
def matchedTraffic (dist : ℚ → ℚ → ℚ → ℚ → ℚ) (cs : List TrafficSituation)
    (cl : List TrafficLightStatus) (err : Bool) (leg : TripLeg) :
    List TrafficSituation × List TrafficLightStatus :=
  let rps := collectRoutePoints leg
  if rps = [] then ([], [])
  else if err = true then ([], [])
  else get_traffic_near_route dist cs cl rps (3/10)

/-- Per-situation contributions (prediction_engine.py 169-173): each
matched situation whose severity delay is positive adds that delay and a
factor string. -/
def situationContribs (l : List TrafficSituation) : List (ℚ × String) :=
  l.filterMap (fun s =>
    let c := get_situation_delay s.severity
    if 0 < c then some ((c : ℚ), "Traffic: " ++ s.description.take 50 ++ "...")
    else none)

/-- Python expression light.name or light.intersection_id. -/
def lightLabel (l : TrafficLightStatus) : String :=
  match l.name with
  | some n => if n = "" then l.intersection_id else n
  | none => l.intersection_id

/-- Per-light contributions (prediction_engine.py 178-189): level of
service first, then spillback, each added with a factor string when
positive. -/
def lightContribs (l : List TrafficLightStatus) : List (ℚ × String) :=
  (l.map (fun lt =>
    (let c := get_los_delay lt.level_of_service
     if 0 < c then [((c : ℚ), "Congestion at " ++ lightLabel lt)] else [])
    ++
    (let c := get_spillback_delay lt.spillback_length_meters
     if 0 < c then [((c : ℚ), "Queue at " ++ lightLabel lt)] else []))).flatten

/-- Accumulated delay before the peak step (prediction_engine.py 149-189):
the mode base plus all matched situation and light contributions. -/
def accumulatedDelay (dist : ℚ → ℚ → ℚ → ℚ → ℚ) (cs : List TrafficSituation)
    (cl : List TrafficLightStatus) (err : Bool) (leg : TripLeg) : ℚ :=
  (if leg.mode = TransportMode.bus then RULES.base_bus else RULES.base_tram)
    + ((situationContribs (matchedTraffic dist cs cl err leg).1).map Prod.fst).sum
    + ((lightContribs (matchedTraffic dist cs cl err leg).2).map Prod.fst).sum

/-- Confidence before the peak penalty and clamping
(prediction_engine.py 151-197): base, then either the data boosts (when
route points exist and the lookup succeeded) or the no-data penalty. -/
def confidencePre (dist : ℚ → ℚ → ℚ → ℚ → ℚ) (cs : List TrafficSituation)
    (cl : List TrafficLightStatus) (err : Bool) (leg : TripLeg) : ℚ :=
  CONFIDENCE.base
    + (if collectRoutePoints leg = [] ∨ err = true then CONFIDENCE.no_data_penalty
       else
         (if (matchedTraffic dist cs cl err leg).1 ≠ [] then CONFIDENCE.with_traffic_data else 0)
           + (if (matchedTraffic dist cs cl err leg).2 ≠ [] then CONFIDENCE.with_light_data else 0))

/-- Final confidence (prediction_engine.py 199-214): peak penalty, clamp
to [0.1, 1.0], round to two decimals. -/
def confidenceFinal (dist : ℚ → ℚ → ℚ → ℚ → ℚ) (cs : List TrafficSituation)
    (cl : List TrafficLightStatus) (err : Bool) (leg : TripLeg) : ℚ :=
  pyRound2 (max (1/10) (min 1 (confidencePre dist cs cl err leg
    + (if is_peak_hour leg.origin.scheduled_time then CONFIDENCE.peak_hour_penalty else 0))))

/-- Final delay in minutes from the accumulated delay
(prediction_engine.py 199-210): in peak the total is multiplied by 1.5 and
passed through the Python int() truncation, then max(0, round(.)). -/
def delayFinal (peak : Bool) (total : ℚ) : Nat :=
  (max 0 (pyRound (if peak then ((pyInt (total * RULES.peak_multiplier) : ℤ) : ℚ) else total))).toNat

/-- Factor strings in firing order (prediction_engine.py 150-204): mode
base factor, then the traffic block (no-coordinates note, error note, or
the matched contributions in order), then the peak factor. -/
def factorsAll (dist : ℚ → ℚ → ℚ → ℚ → ℚ) (cs : List TrafficSituation)
    (cl : List TrafficLightStatus) (err : Bool) (leg : TripLeg) : List String :=
  (if leg.mode = TransportMode.bus then ["Bus service variability"]
   else ["Tram service variability"])
    ++ (if collectRoutePoints leg = [] then ["No coordinates available for traffic lookup"]
        else if err = true then ["Limited traffic data available"]
        else ((situationContribs (matchedTraffic dist cs cl err leg).1).map Prod.snd)
          ++ ((lightContribs (matchedTraffic dist cs cl err leg).2).map Prod.snd))
    ++ (if is_peak_hour leg.origin.scheduled_time then ["Peak hour traffic"] else [])

/-- predict_delay_for_leg (prediction_engine.py 112-218): None for modes
other than bus and tram, otherwise the assembled prediction with the
factor list truncated to five entries. -/
def predict_delay_for_leg (dist : ℚ → ℚ → ℚ → ℚ → ℚ) (cs : List TrafficSituation)
    (cl : List TrafficLightStatus) (err : Bool) (leg : TripLeg) :
    Option DelayPrediction :=
  if leg.mode = TransportMode.bus ∨ leg.mode = TransportMode.tram then
    some
      { predicted_delay_minutes :=
          delayFinal (is_peak_hour leg.origin.scheduled_time) (accumulatedDelay dist cs cl err leg)
        confidence_score := confidenceFinal dist cs cl err leg
        factors := (factorsAll dist cs cl err leg).take 5
        is_peak_hour := is_peak_hour leg.origin.scheduled_time }
  else none

/-- Predicted delay of an optional prediction, 0 when absent. -/
def predictedDelayOf (o : Option DelayPrediction) : Nat :=
  match o with
  | some p => p.predicted_delay_minutes
  | none => 0

/-- Confidence score of an optional prediction, 0 when absent. -/
def confidenceOf (o : Option DelayPrediction) : ℚ :=
  match o with
  | some p => p.confidence_score
  | none => 0

/-! ## main.py broadcast hub -/

/-- One SSE subscriber of main.py: the bounded asyncio.Queue registered in
_subscribers, with its pending events in FIFO order and its capacity
(maxsize, 50 in api_sse_events). -/
structure Subscriber where
  queue : List SSEEvent
  maxsize : Nat
deriving DecidableEq, Repr

/-- asyncio.Queue.put_nowait: enqueue when below capacity, otherwise the
QueueFull outcome, modelled as none. -/
def put_nowait (s : Subscriber) (e : SSEEvent) : Option Subscriber :=
  if s.queue.length < s.maxsize then some { s with queue := s.queue ++ [e] }
  else none

/-- broadcast_event (main.py 102-118): push to every subscriber without
blocking; subscribers whose queue is full are collected as dead and
removed from the registry. -/
def broadcast_event (e : SSEEvent) (subscribers : List Subscriber) : List Subscriber :=
  subscribers.filterMap (fun s => put_nowait s e)

/-- Repeated broadcasts of a list of events, oldest first, with no
subscriber consuming in between. -/
def broadcastMany (events : List SSEEvent) (subscribers : List Subscriber) : List Subscriber :=
  events.foldl (fun acc e => broadcast_event e acc) subscribers

/-! ## Concrete inputs used by witnesses and counterexamples -/

/-- A distance function that is identically zero; it agrees with the
haversine distance on pairs of identical points, which is all the concrete
statements below use. -/
def dist0 : ℚ → ℚ → ℚ → ℚ → ℚ := fun _ _ _ _ => 0

/-- A sample disruption. -/
def d0 : Disruption :=
  { id := "d1", title := "t", description := "", severity := DisruptionSeverity.warning,
    affected_lines := ["L1"], affected_stops := ["S1"], is_active := true }

/-- A bus leg departing at 06:00 (inside the morning peak window), with no
coordinates. -/
def legPeakBus : TripLeg :=
  { leg_id := "l1", mode := TransportMode.bus, line_number := some "31",
    origin := { id := "o", name := "O", scheduled_time := 21600,
                latitude := none, longitude := none },
    destination := { id := "d", name := "D", scheduled_time := 22200,
                     latitude := none, longitude := none },
    intermediate_stops := [], duration_minutes := 10 }

/-- A bus leg departing at 13:00 (off peak), with coordinates. -/
def legC4 : TripLeg :=
  { leg_id := "l2", mode := TransportMode.bus, line_number := some "31",
    origin := { id := "o", name := "O", scheduled_time := 46800,
                latitude := some 47, longitude := some 8 },
    destination := { id := "d", name := "D", scheduled_time := 47400,
                     latitude := some 47, longitude := some 8 },
    intermediate_stops := [], duration_minutes := 10 }

/-- A situation with a defined location whose latitude is exactly 0. -/
def sAxis : TrafficSituation :=
  { id := "s0", description := "on the equator", latitude := some 0,
    longitude := some 10, severity := "normal" }

/-- A situation with a truthy location. -/
def sIncl : TrafficSituation :=
  { id := "s1", description := "works", latitude := some 1, longitude := some 1,
    severity := "normal" }

/-- A traffic light with a defined location whose longitude is exactly 0. -/
def lAxis : TrafficLightStatus :=
  { intersection_id := "i0", area_id := "a", name := none, level_of_service := some "F",
    spillback_length_meters := none, green_percentage := none,
    latitude := some 10, longitude := some 0 }

/-- A stop point whose latitude is exactly 0. -/
def spAxis : StopPoint :=
  { id := "sp", name := "SP", scheduled_time := 0, latitude := some 0, longitude := some 7 }

/-- A situation bucketed minor (no severity keyword). -/
def sMinor : TrafficSituation :=
  { id := "m", description := "closed lane", latitude := some 1, longitude := some 1,
    severity := "foo" }

/-- A situation bucketed severe, at the same location as sMinor. -/
def sSevere : TrafficSituation :=
  { id := "v", description := "accident", latitude := some 1, longitude := some 1,
    severity := "severe" }

/-- A sample event. -/
def e0 : SSEEvent := { event_type := "disruptions_update", data := [] }

/-- A subscriber with an empty queue of capacity 5. -/
def sub0 : Subscriber := { queue := [], maxsize := 5 }

/-- Rounding to the nearest integer with halves rounding up.  This is the
rounding claim C3 describes; it is written from the claim for comparison
with the code, not taken from the source. -/
def claimRoundHalfUp (q : ℚ) : ℤ := ⌊q + 1/2⌋

/-! ## Helper lemmas -/

/-- Python int() is monotone. -/
theorem pyInt_mono {a b : ℚ} (h : a ≤ b) : pyInt a ≤ pyInt b := by
  unfold pyInt
  by_cases ha : 0 ≤ a
  · have hb : 0 ≤ b := le_trans ha h
    simp only [ha, hb, if_true]
    exact Int.floor_le_floor h
  · by_cases hb : 0 ≤ b
    · simp only [ha, hb, if_true, if_false]
      calc ⌈a⌉ ≤ 0 := Int.ceil_le.mpr (by exact_mod_cast le_of_lt (lt_of_not_ge ha))
        _ ≤ ⌊b⌋ := Int.le_floor.mpr (by exact_mod_cast hb)
    · simp only [ha, hb, if_false]
      exact Int.ceil_le_ceil h

/-- Python round() of an integer is that integer. -/
theorem pyRound_intCast (k : ℤ) : pyRound ((k : ℤ) : ℚ) = k := by
  unfold pyRound
  rw [Int.floor_intCast]
  norm_num

/-- Python round() is at least the floor. -/
theorem pyRound_floor_le (q : ℚ) : ⌊q⌋ ≤ pyRound q := by
  unfold pyRound
  split_ifs <;> omega

/-- Python round() is at most the floor plus one. -/
theorem pyRound_le_floor_add_one (q : ℚ) : pyRound q ≤ ⌊q⌋ + 1 := by
  unfold pyRound
  split_ifs <;> omega

/-- Python round() is monotone. -/
theorem pyRound_mono {a b : ℚ} (h : a ≤ b) : pyRound a ≤ pyRound b := by
  rcases lt_or_ge ⌊a⌋ ⌊b⌋ with hf | hf
  · calc pyRound a ≤ ⌊a⌋ + 1 := pyRound_le_floor_add_one a
      _ ≤ ⌊b⌋ := by omega
      _ ≤ pyRound b := pyRound_floor_le b
  · have hfe : ⌊a⌋ = ⌊b⌋ := le_antisymm (Int.floor_le_floor h) hf
    have hab : a - (⌊b⌋ : ℚ) ≤ b - (⌊b⌋ : ℚ) := by linarith
    unfold pyRound
    rw [hfe]
    split_ifs <;> first | omega | linarith

/-- The final delay step is monotone in the accumulated delay. -/
theorem delayFinal_mono (peak : Bool) {a b : ℚ} (h : a ≤ b) :
    delayFinal peak a ≤ delayFinal peak b := by
  unfold delayFinal
  apply Int.toNat_le_toNat
  apply max_le_max le_rfl
  apply pyRound_mono
  cases peak
  · simpa using h
  · simp only [if_true]
    exact_mod_cast pyInt_mono (mul_le_mul_of_nonneg_right h (by norm_num [RULES.peak_multiplier]))

/-- Unfolding of predict_delay_for_leg for road modes. -/
theorem predict_delay_for_leg_eq (dist : ℚ → ℚ → ℚ → ℚ → ℚ) (cs : List TrafficSituation)
    (cl : List TrafficLightStatus) (err : Bool) (leg : TripLeg)
    (h : leg.mode = TransportMode.bus ∨ leg.mode = TransportMode.tram) :
    predict_delay_for_leg dist cs cl err leg = some
      { predicted_delay_minutes :=
          delayFinal (is_peak_hour leg.origin.scheduled_time) (accumulatedDelay dist cs cl err leg)
        confidence_score := confidenceFinal dist cs cl err leg
        factors := (factorsAll dist cs cl err leg).take 5
        is_peak_hour := is_peak_hour leg.origin.scheduled_time } := by
  unfold predict_delay_for_leg
  rw [if_pos h]

/-- The situation proximity test depends only on the coordinates. -/
theorem situationNearRoute_coords (dist : ℚ → ℚ → ℚ → ℚ → ℚ) (rps : List (ℚ × ℚ))
    (radius : ℚ) {s s' : TrafficSituation}
    (hla : s'.latitude = s.latitude) (hlo : s'.longitude = s.longitude) :
    situationNearRoute dist rps radius s' = situationNearRoute dist rps radius s := by
  unfold situationNearRoute
  rw [hla, hlo]

/-! ## Claim theorems -/

/-- C1 (counterexample): after a successful SIRI-SX fetch at time 0 whose
30-second cache entry has expired, a failing refresh at time 30 returns
the empty list with available = false, not the previously fetched
nonempty value: the claim that the previously fetched value is returned
unchanged is false. -/
theorem C1_counterexample :
    (fetch_siri_sx_disruptions
        { cache := some ([d0], 0), available := true, apiKey := true } 30 none).1
      = ([], false)
    ∧ ([d0] : List Disruption) ≠ [] := by
  constructor
  · rfl
  · simp

/-- C1 (amended): if the adapter fetch fails after a prior successful
fetch whose cache entry has expired, the stale value is not retained in
the reply: availability is false and the returned records come from the
failed attempt's local accumulator only, never from the expired cache
entry (which is left in place and is never served again).  For SIRI-SX
(whose per-item parse errors are absorbed by an inner try/continue, so
any outer exception fires before accumulation) that accumulator is the
empty list; for GTFS-RT it is whatever delays the failed parse attempt
had accumulated — empty for timeouts and HTTP errors, possibly a
non-empty partial dict for a mid-loop parse error — in every case the
current attempt's data, not the previously fetched value. -/
theorem C1_expired_failure_discards_stale :
    (∀ (v : List Disruption) (t now : Nat) (a : Bool),
       t + 30 ≤ now →
       fetch_siri_sx_disruptions
           { cache := some (v, t), available := a, apiKey := true } now none
         = (([], false), { cache := some (v, t), available := false, apiKey := true }))
    ∧
    (∀ (v acc : List (String × ℤ)) (t now : Nat) (a : Bool),
       t + 60 ≤ now →
       fetch_gtfs_rt_delays
           { cache := some (v, t), available := a, apiKey := true } now (GtfsOutcome.failure acc)
         = ((acc, false), { cache := some (v, t), available := false, apiKey := true })) := by
  constructor
  · intro v t now a hexp
    have hlt : ¬ (now < t + 30) := by omega
    simp [fetch_siri_sx_disruptions, siriFresh, hlt]
  · intro v acc t now a hexp
    have hlt : ¬ (now < t + 60) := by omega
    simp [fetch_gtfs_rt_delays, gtfsFresh, hlt]

/-- C1 (witness): the amended statement at concrete expired states; the
GTFS instance uses a mid-loop parse failure whose partial accumulator is
non-empty and distinct from the stale dict, and that accumulator — not
the stale value — is what comes back. -/
theorem C1_expired_failure_discards_stale_witness :
    fetch_siri_sx_disruptions
        { cache := some ([d0], 0), available := true, apiKey := true } 30 none
      = (([], false), { cache := some ([d0], 0), available := false, apiKey := true })
    ∧ fetch_gtfs_rt_delays
        { cache := some ([("trip7", 3)], 0), available := true, apiKey := true } 60
        (GtfsOutcome.failure [("trip9", 5)])
      = (([("trip9", 5)], false),
         { cache := some ([("trip7", 3)], 0), available := false, apiKey := true }) :=
  ⟨C1_expired_failure_discards_stale.1 [d0] 0 30 true (by omega),
   C1_expired_failure_discards_stale.2 [("trip7", 3)] [("trip9", 5)] 0 60 true (by omega)⟩

/-- C2 (code bug): fetch_traffic_situations returns a bare record list,
with no availability flag; on a failed fetch with a cold cache the list is
empty, and the tuple unpacking that main.py performs on the result
(situations, available = await fetch_traffic_situations()) fails, so the
claimed pair contract does not hold for the traffic adapters. -/
theorem C2_traffic_adapter_shape_bug :
    (fetch_traffic_situations { cache := none } 0 none).1 = []
    ∧ pyUnpack2 ((fetch_traffic_situations { cache := none } 0 none).1) = none := by
  constructor
  · rfl
  · rfl

/-- C7: the relevance filter keeps a disruption exactly when its affected
stops meet the queried stop ids or its affected lines meet the queried
line refs, and with both query sets empty the result is empty. -/
theorem C7_relevance_filter :
    ∀ (all_disruptions : List Disruption) (stop_ids line_refs : List String),
      (∀ d, d ∈ get_disruptions_for_route all_disruptions stop_ids line_refs
          ↔ d ∈ all_disruptions ∧
            ((∃ x ∈ d.affected_stops, x ∈ stop_ids) ∨ (∃ x ∈ d.affected_lines, x ∈ line_refs)))
      ∧ (stop_ids = [] → line_refs = [] →
           get_disruptions_for_route all_disruptions stop_ids line_refs = []) := by
  intro all ss ls
  constructor
  · intro d
    simp [get_disruptions_for_route, List.mem_filter, listIntersects, List.any_eq_true]
  · rintro rfl rfl
    simp [get_disruptions_for_route, listIntersects]

/-- C7 (witness): both query sets empty on a nonempty disruption list. -/
theorem C7_relevance_filter_witness :
    get_disruptions_for_route [d0] [] [] = [] :=
  (C7_relevance_filter [d0] [] []).2 rfl rfl

/-- C10: a coordinate equal to 0.0 is treated as absent: a situation or a
light with a 0 latitude or longitude is never matched by the proximity
matcher, for any distance function and any radius, and a stop point with a
0 coordinate contributes no route point to the prediction lookup. -/
theorem C10_zero_coordinate_absent :
    (∀ (dist : ℚ → ℚ → ℚ → ℚ → ℚ) (cs : List TrafficSituation)
       (cl : List TrafficLightStatus) (rps : List (ℚ × ℚ)) (radius : ℚ)
       (s : TrafficSituation),
       s.latitude = some 0 ∨ s.longitude = some 0 →
       s ∉ (get_traffic_near_route dist cs cl rps radius).1)
    ∧ (∀ (dist : ℚ → ℚ → ℚ → ℚ → ℚ) (cs : List TrafficSituation)
       (cl : List TrafficLightStatus) (rps : List (ℚ × ℚ)) (radius : ℚ)
       (l : TrafficLightStatus),
       l.latitude = some 0 ∨ l.longitude = some 0 →
       l ∉ (get_traffic_near_route dist cs cl rps radius).2)
    ∧ (∀ sp : StopPoint,
       sp.latitude = some 0 ∨ sp.longitude = some 0 → stopRoutePoint sp = none) := by
  refine ⟨?_, ?_, ?_⟩
  · intro dist cs cl rps radius s hzero hmem
    rw [get_traffic_near_route] at hmem
    have hmatch := (List.mem_filter.mp hmem).2
    unfold situationNearRoute at hmatch
    rcases hzero with hz | hz <;> rw [hz] at hmatch <;> simp [coordTruthy] at hmatch
  · intro dist cs cl rps radius l hzero hmem
    rw [get_traffic_near_route] at hmem
    have hmatch := (List.mem_filter.mp hmem).2
    unfold lightNearRoute at hmatch
    rcases hzero with hz | hz <;> rw [hz] at hmatch <;> simp [coordTruthy] at hmatch
  · intro sp hzero
    unfold stopRoutePoint
    rcases hzero with hz | hz <;> rw [hz] <;> simp [coordTruthy]

/-- C10 (witness): the zero-coordinate situation, light and stop point
from above are all excluded even though every distance is zero. -/
theorem C10_zero_coordinate_absent_witness :
    sAxis ∉ (get_traffic_near_route dist0 [sAxis] [lAxis] [(0, 10)] 1).1
    ∧ lAxis ∉ (get_traffic_near_route dist0 [sAxis] [lAxis] [(0, 10)] 1).2
    ∧ stopRoutePoint spAxis = none :=
  ⟨C10_zero_coordinate_absent.1 dist0 [sAxis] [lAxis] [(0, 10)] 1 sAxis (Or.inl rfl),
   C10_zero_coordinate_absent.2.1 dist0 [sAxis] [lAxis] [(0, 10)] 1 lAxis (Or.inr rfl),
   C10_zero_coordinate_absent.2.2 spAxis (Or.inl rfl)⟩

/-- Characterization of the situation proximity test. -/
theorem situationNearRoute_iff (dist : ℚ → ℚ → ℚ → ℚ → ℚ) (rps : List (ℚ × ℚ))
    (radius : ℚ) (s : TrafficSituation) :
    situationNearRoute dist rps radius s = true
      ↔ ∃ la lo, s.latitude = some la ∧ s.longitude = some lo ∧ la ≠ 0 ∧ lo ≠ 0 ∧
          ∃ p ∈ rps, dist la lo p.1 p.2 ≤ radius := by
  unfold situationNearRoute
  rcases hla : s.latitude with _ | la <;> rcases hlo : s.longitude with _ | lo <;>
    simp [hla, hlo, coordTruthy, List.any_eq_true, and_assoc]

/-- Characterization of the light proximity test. -/
theorem lightNearRoute_iff (dist : ℚ → ℚ → ℚ → ℚ → ℚ) (rps : List (ℚ × ℚ))
    (radius : ℚ) (l : TrafficLightStatus) :
    lightNearRoute dist rps radius l = true
      ↔ ∃ la lo, l.latitude = some la ∧ l.longitude = some lo ∧ la ≠ 0 ∧ lo ≠ 0 ∧
          ∃ p ∈ rps, dist la lo p.1 p.2 ≤ radius := by
  unfold lightNearRoute
  rcases hla : l.latitude with _ | la <;> rcases hlo : l.longitude with _ | lo <;>
    simp [hla, hlo, coordTruthy, List.any_eq_true, and_assoc]

/-- C5 (amended): the proximity matcher includes a candidate exactly when
both coordinates are present and nonzero and the candidate lies within
radius_km (inclusive boundary) of some route point; the output is a
sublist of the input, so input order is preserved.  dist stands for the
haversine distance of the source. -/
theorem C5_proximity_filter :
    ∀ (dist : ℚ → ℚ → ℚ → ℚ → ℚ) (cs : List TrafficSituation)
      (cl : List TrafficLightStatus) (rps : List (ℚ × ℚ)) (radius : ℚ),
      (∀ s, s ∈ (get_traffic_near_route dist cs cl rps radius).1
          ↔ s ∈ cs ∧ ∃ la lo, s.latitude = some la ∧ s.longitude = some lo ∧
              la ≠ 0 ∧ lo ≠ 0 ∧ ∃ p ∈ rps, dist la lo p.1 p.2 ≤ radius)
      ∧ List.Sublist (get_traffic_near_route dist cs cl rps radius).1 cs
      ∧ (∀ l, l ∈ (get_traffic_near_route dist cs cl rps radius).2
          ↔ l ∈ cl ∧ ∃ la lo, l.latitude = some la ∧ l.longitude = some lo ∧
              la ≠ 0 ∧ lo ≠ 0 ∧ ∃ p ∈ rps, dist la lo p.1 p.2 ≤ radius)
      ∧ List.Sublist (get_traffic_near_route dist cs cl rps radius).2 cl := by
  intro dist cs cl rps radius
  refine ⟨?_, List.filter_sublist _, ?_, List.filter_sublist _⟩
  · intro s
    rw [get_traffic_near_route, List.mem_filter, situationNearRoute_iff]
  · intro l
    rw [get_traffic_near_route, List.mem_filter, lightNearRoute_iff]

/-- C5 (counterexample): a candidate with a defined location on the zero
latitude line, at distance 0 from a route point (so within any radius), is
excluded by the matcher: the claimed inclusion for every defined location
within the radius is false.  The zero distance function agrees with the
haversine distance here, the candidate and route point coinciding. -/
theorem C5_counterexample :
    sAxis.latitude = some 0
    ∧ sAxis.longitude = some 10
    ∧ dist0 0 10 0 10 ≤ 1
    ∧ (get_traffic_near_route dist0 [sAxis] [] [(0, 10)] 1).1 = [] := by
  refine ⟨rfl, rfl, by norm_num [dist0], by decide⟩

/-- C5 (witness): a candidate with truthy coordinates within the radius is
included. -/
theorem C5_proximity_filter_witness :
    sIncl ∈ (get_traffic_near_route dist0 [sIncl] [] [(1, 1)] 1).1 :=
  ((C5_proximity_filter dist0 [sIncl] [] [(1, 1)] 1).1 sIncl).mpr
    ⟨List.mem_singleton.mpr rfl,
     1, 1, rfl, rfl, by norm_num, by norm_num, (1, 1), by simp, by norm_num [dist0]⟩

/-- A dead TTL entry stays dead as time advances. -/
theorem ttlLive_mono_false {α : Type} (c : Option (α × Nat)) {now now' ttl : Nat}
    (h : now ≤ now') (hf : ttlLive c now ttl = false) : ttlLive c now' ttl = false := by
  rcases c with _ | ⟨x, t⟩
  · simp [ttlLive]
  · simp [ttlLive] at *
    omega

/-- A live SIRI-SX cache entry short-circuits the fetch. -/
theorem fetch_siri_hit {s : SiriState} {v : List Disruption} {t now : Nat}
    (hc : s.cache = some (v, t)) (h : now < t + 30) (o : Option (List Disruption)) :
    fetch_siri_sx_disruptions s now o = ((v, s.available), s) := by
  unfold fetch_siri_sx_disruptions
  rw [hc]
  simp [h]

/-- The three outcomes of one SIRI-SX fetch: cache hit, fresh success, or
failure (including the missing-credential path) leaving a dead cache. -/
theorem fetch_siri_cases (s : SiriState) (now : Nat) (o : Option (List Disruption)) :
    (∃ v t, s.cache = some (v, t) ∧ now < t + 30 ∧
        fetch_siri_sx_disruptions s now o = ((v, s.available), s))
    ∨ (∃ recs, fetch_siri_sx_disruptions s now o
        = ((recs, true), { cache := some (recs, now), available := true, apiKey := s.apiKey }))
    ∨ (fetch_siri_sx_disruptions s now o = (([], false), { s with available := false })
        ∧ ttlLive s.cache now 30 = false) := by
  obtain ⟨c, a, k⟩ := s
  rcases c with _ | ⟨v, t⟩
  · cases k
    · right; right
      exact ⟨by simp [fetch_siri_sx_disruptions, siriFresh], by simp [ttlLive]⟩
    · rcases o with _ | recs
      · right; right
        exact ⟨by simp [fetch_siri_sx_disruptions, siriFresh], by simp [ttlLive]⟩
      · right; left
        exact ⟨recs, by simp [fetch_siri_sx_disruptions, siriFresh]⟩
  · by_cases hhit : now < t + 30
    · left
      exact ⟨v, t, rfl, hhit, fetch_siri_hit rfl hhit o⟩
    · cases k
      · right; right
        exact ⟨by simp [fetch_siri_sx_disruptions, siriFresh, hhit],
               by simp [ttlLive]; omega⟩
      · rcases o with _ | recs
        · right; right
          exact ⟨by simp [fetch_siri_sx_disruptions, siriFresh, hhit],
                 by simp [ttlLive]; omega⟩
        · right; left
          exact ⟨recs, by simp [fetch_siri_sx_disruptions, siriFresh, hhit]⟩

/-- A live traffic cache entry short-circuits the fetch. -/
theorem fetch_traffic_hit {s : TrafficSitState} {v : List TrafficSituation} {t now : Nat}
    (hc : s.cache = some (v, t)) (h : now < t + 60) (o : Option (List TrafficSituation)) :
    fetch_traffic_situations s now o = (v, s) := by
  unfold fetch_traffic_situations
  rw [hc]
  simp [h]

/-- The three outcomes of one traffic situations fetch. -/
theorem fetch_traffic_cases (s : TrafficSitState) (now : Nat)
    (o : Option (List TrafficSituation)) :
    (∃ v t, s.cache = some (v, t) ∧ now < t + 60 ∧
        fetch_traffic_situations s now o = (v, s))
    ∨ (∃ recs, fetch_traffic_situations s now o = (recs, { cache := some (recs, now) }))
    ∨ (fetch_traffic_situations s now o = ([], s) ∧ ttlLive s.cache now 60 = false) := by
  obtain ⟨c⟩ := s
  rcases c with _ | ⟨v, t⟩
  · rcases o with _ | recs
    · right; right
      exact ⟨by simp [fetch_traffic_situations, trafficSitFresh], by simp [ttlLive]⟩
    · right; left
      exact ⟨recs, by simp [fetch_traffic_situations, trafficSitFresh]⟩
  · by_cases hhit : now < t + 60
    · left
      exact ⟨v, t, rfl, hhit, fetch_traffic_hit rfl hhit o⟩
    · rcases o with _ | recs
      · right; right
        exact ⟨by simp [fetch_traffic_situations, trafficSitFresh, hhit],
               by simp [ttlLive]; omega⟩
      · right; left
        exact ⟨recs, by simp [fetch_traffic_situations, trafficSitFresh, hhit]⟩

/-- C9: for both cached feeds, a second call made while the entry produced
by a first call is still inside its TTL window returns the same value with
the state unchanged, for every possible upstream outcome of the second
call: the adapter result is never consulted, hence no upstream I/O
influences the reply. -/
theorem C9_cache_hit_serves_cached :
    (∀ (s : SiriState) (now : Nat) (o1 : Option (List Disruption)) (now' : Nat)
       (o2 : Option (List Disruption)),
       now ≤ now' →
       ttlLive (fetch_siri_sx_disruptions s now o1).2.cache now' 30 = true →
       fetch_siri_sx_disruptions (fetch_siri_sx_disruptions s now o1).2 now' o2
         = (((fetch_siri_sx_disruptions s now o1).1.1,
             (fetch_siri_sx_disruptions s now o1).2.available),
            (fetch_siri_sx_disruptions s now o1).2))
    ∧
    (∀ (s : TrafficSitState) (now : Nat) (o1 : Option (List TrafficSituation)) (now' : Nat)
       (o2 : Option (List TrafficSituation)),
       now ≤ now' →
       ttlLive (fetch_traffic_situations s now o1).2.cache now' 60 = true →
       fetch_traffic_situations (fetch_traffic_situations s now o1).2 now' o2
         = ((fetch_traffic_situations s now o1).1,
            (fetch_traffic_situations s now o1).2)) := by
  constructor
  · intro s now o1 now' o2 hle hlive
    rcases fetch_siri_cases s now o1 with ⟨v, t, hc, hlt, heq⟩ | ⟨recs, heq⟩ | ⟨heq, hdead⟩
    · rw [heq] at hlive ⊢
      rw [hc] at hlive
      simp only [ttlLive, decide_eq_true_eq] at hlive
      exact fetch_siri_hit hc hlive o2
    · rw [heq] at hlive ⊢
      simp only [ttlLive, decide_eq_true_eq] at hlive
      exact fetch_siri_hit rfl hlive o2
    · rw [heq] at hlive
      have : ttlLive s.cache now' 30 = false := ttlLive_mono_false s.cache hle hdead
      simp only [this] at hlive
      cases hlive
  · intro s now o1 now' o2 hle hlive
    rcases fetch_traffic_cases s now o1 with ⟨v, t, hc, hlt, heq⟩ | ⟨recs, heq⟩ | ⟨heq, hdead⟩
    · rw [heq] at hlive ⊢
      rw [hc] at hlive
      simp only [ttlLive, decide_eq_true_eq] at hlive
      exact fetch_traffic_hit hc hlive o2
    · rw [heq] at hlive ⊢
      simp only [ttlLive, decide_eq_true_eq] at hlive
      exact fetch_traffic_hit rfl hlive o2
    · rw [heq] at hlive
      have : ttlLive s.cache now' 60 = false := ttlLive_mono_false s.cache hle hdead
      simp only [this] at hlive
      cases hlive

/-- C9 (witness): after a successful fetch at time 0, a repeated call at
time 10 (inside both TTL windows) returns the cached value unchanged even
though the upstream outcome argument is a failure. -/
theorem C9_cache_hit_serves_cached_witness :
    fetch_siri_sx_disruptions
        (fetch_siri_sx_disruptions { cache := none, available := true, apiKey := true }
          0 (some [d0])).2 10 none
      = (([d0], true),
         { cache := some ([d0], 0), available := true, apiKey := true })
    ∧ fetch_traffic_situations
        (fetch_traffic_situations { cache := none } 0 (some [sIncl])).2 10 none
      = ([sIncl], { cache := some ([sIncl], 0) }) :=
  ⟨C9_cache_hit_serves_cached.1 { cache := none, available := true, apiKey := true }
      0 (some [d0]) 10 none (by omega) (by decide),
   C9_cache_hit_serves_cached.2 { cache := none } 0 (some [sIncl]) 10 none
      (by omega) (by decide)⟩


/-- C3 (counterexample): a bus leg in the morning peak with no matched
signals accumulates exactly the base delay 1; the code outputs
int(1 * 1.5) = 1 minute, while rounding the product 1.5 to the nearest
integer with halves up, as the claim states, gives 2. -/
theorem C3_counterexample :
    is_peak_hour legPeakBus.origin.scheduled_time = true
    ∧ accumulatedDelay dist0 [] [] false legPeakBus * RULES.peak_multiplier = 3/2
    ∧ predictedDelayOf (predict_delay_for_leg dist0 [] [] false legPeakBus) = 1
    ∧ claimRoundHalfUp (3/2) = 2 := by
  have hmt : matchedTraffic dist0 [] [] false legPeakBus = ([], []) := rfl
  have hacc : accumulatedDelay dist0 [] [] false legPeakBus = 1 := by
    unfold accumulatedDelay
    rw [hmt]
    norm_num [situationContribs, lightContribs, RULES.base_bus, legPeakBus]
  refine ⟨by decide, ?_, ?_, by norm_num [claimRoundHalfUp]⟩
  · rw [hacc]
    norm_num [RULES.peak_multiplier]
  · rw [predict_delay_for_leg_eq dist0 [] [] false legPeakBus (Or.inl rfl)]
    simp only [predictedDelayOf]
    have hpk : is_peak_hour legPeakBus.origin.scheduled_time = true := by decide
    rw [hpk, hacc]
    unfold delayFinal
    norm_num [pyInt, pyRound, RULES.peak_multiplier]

/-- C3 (amended): inside a peak window the accumulated delay is multiplied
by the peak multiplier 1.5 (a constant greater than 1) and the product is
truncated toward zero by the Python int() conversion, not rounded to
nearest: a product with fractional part 0.5 loses it. -/
theorem C3_peak_truncates :
    ∀ (dist : ℚ → ℚ → ℚ → ℚ → ℚ) (cs : List TrafficSituation)
      (cl : List TrafficLightStatus) (err : Bool) (leg : TripLeg),
      leg.mode = TransportMode.bus ∨ leg.mode = TransportMode.tram →
      is_peak_hour leg.origin.scheduled_time = true →
      1 < RULES.peak_multiplier
      ∧ predictedDelayOf (predict_delay_for_leg dist cs cl err leg)
          = (max 0 (pyInt (accumulatedDelay dist cs cl err leg * RULES.peak_multiplier))).toNat := by
  intro dist cs cl err leg hmode hpeak
  refine ⟨by norm_num [RULES.peak_multiplier], ?_⟩
  rw [predict_delay_for_leg_eq dist cs cl err leg hmode]
  simp only [predictedDelayOf, delayFinal, hpeak, if_true, pyRound_intCast]

/-- C3 (witness): the amended statement at the concrete peak bus leg. -/
theorem C3_peak_truncates_witness :
    1 < RULES.peak_multiplier
    ∧ predictedDelayOf (predict_delay_for_leg dist0 [] [] false legPeakBus)
        = (max 0 (pyInt (accumulatedDelay dist0 [] [] false legPeakBus
            * RULES.peak_multiplier))).toNat :=
  C3_peak_truncates dist0 [] [] false legPeakBus (Or.inl rfl) (by decide)

/-- C4 (counterexample): a bus leg with geolocated stops and zero matched
situations and zero matched lights gets confidence 0.7 (the base, with no
boost and no penalty), not the no-data penalty value 0.4 the claim
asserts. -/
theorem C4_counterexample :
    matchedTraffic dist0 [] [] false legC4 = ([], [])
    ∧ collectRoutePoints legC4 ≠ []
    ∧ confidenceOf (predict_delay_for_leg dist0 [] [] false legC4) = 7/10
    ∧ CONFIDENCE.base + CONFIDENCE.no_data_penalty = 2/5
    ∧ (7/10 : ℚ) ≠ 2/5 := by
  refine ⟨rfl, by decide, ?_, by norm_num [CONFIDENCE.base, CONFIDENCE.no_data_penalty],
    by norm_num⟩
  rw [predict_delay_for_leg_eq dist0 [] [] false legC4 (Or.inl rfl)]
  simp only [confidenceOf]
  have hpk : is_peak_hour legC4.origin.scheduled_time = false := by decide
  have hmt : matchedTraffic dist0 [] [] false legC4 = ([], []) := rfl
  have hrp : ¬ (collectRoutePoints legC4 = []) := by decide
  unfold confidenceFinal confidencePre
  rw [hmt, hpk]
  simp only [hrp]
  norm_num [pyRound2, pyRound, min_def, max_def, CONFIDENCE.base, CONFIDENCE.no_data_penalty,
    CONFIDENCE.with_traffic_data, CONFIDENCE.with_light_data, CONFIDENCE.peak_hour_penalty]

/-- C4 (amended): for a bus or tram leg with zero matched situations and
zero matched lights, the pre-peak pre-clamp confidence equals the base
plus the no-data penalty exactly when the leg has no geolocated route
points or the lookup failed, and equals the bare base otherwise; in every
such case the predicted delay is computed from the mode base jitter alone
(rounded, after the peak step where applicable). -/
theorem C4_no_signal_paths :
    ∀ (dist : ℚ → ℚ → ℚ → ℚ → ℚ) (cs : List TrafficSituation)
      (cl : List TrafficLightStatus) (err : Bool) (leg : TripLeg),
      leg.mode = TransportMode.bus ∨ leg.mode = TransportMode.tram →
      matchedTraffic dist cs cl err leg = ([], []) →
      confidencePre dist cs cl err leg
          = (if collectRoutePoints leg = [] ∨ err = true
             then CONFIDENCE.base + CONFIDENCE.no_data_penalty
             else CONFIDENCE.base)
      ∧ predictedDelayOf (predict_delay_for_leg dist cs cl err leg)
          = delayFinal (is_peak_hour leg.origin.scheduled_time)
              (if leg.mode = TransportMode.bus then RULES.base_bus else RULES.base_tram) := by
  intro dist cs cl err leg hmode hmt
  constructor
  · unfold confidencePre
    rw [hmt]
    by_cases hnd : collectRoutePoints leg = [] ∨ err = true
    · simp [hnd]
    · simp [hnd]
  · rw [predict_delay_for_leg_eq dist cs cl err leg hmode]
    simp only [predictedDelayOf]
    have hacc : accumulatedDelay dist cs cl err leg
        = (if leg.mode = TransportMode.bus then RULES.base_bus else RULES.base_tram) := by
      unfold accumulatedDelay
      rw [hmt]
      simp [situationContribs, lightContribs]
    rw [hacc]

/-- C4 (witness): the amended statement at the concrete off-peak bus leg
with coordinates and empty feeds. -/
theorem C4_no_signal_paths_witness :
    confidencePre dist0 [] [] false legC4
        = (if collectRoutePoints legC4 = [] ∨ false = true
           then CONFIDENCE.base + CONFIDENCE.no_data_penalty
           else CONFIDENCE.base)
    ∧ predictedDelayOf (predict_delay_for_leg dist0 [] [] false legC4)
        = delayFinal (is_peak_hour legC4.origin.scheduled_time)
            (if legC4.mode = TransportMode.bus then RULES.base_bus else RULES.base_tram) :=
  C4_no_signal_paths dist0 [] [] false legC4 (Or.inl rfl) rfl

/-- C8: broadcasting preserves the queue bound of every surviving
subscriber over any sequence of events (so a capacity-K subscriber that
consumes nothing holds at most K events), and one broadcast equals
appending the event to every non-full subscriber while evicting every full
one from the registry: the publish never blocks (it is a total function of
the registry) and full subscribers are dropped, not retried. -/
theorem C8_bounded_broadcast :
    (∀ (events : List SSEEvent) (subs : List Subscriber),
       (∀ s ∈ subs, s.queue.length ≤ s.maxsize) →
       ∀ s ∈ broadcastMany events subs, s.queue.length ≤ s.maxsize)
    ∧ (∀ (e : SSEEvent) (subs : List Subscriber),
       broadcast_event e subs
         = (subs.filter (fun s => s.queue.length < s.maxsize)).map
             (fun s => { s with queue := s.queue ++ [e] })) := by
  constructor
  · intro events
    induction events with
    | nil =>
        intro subs h s hs
        exact h s hs
    | cons e es ih =>
        intro subs h
        have h1 : ∀ s ∈ broadcast_event e subs, s.queue.length ≤ s.maxsize := by
          intro s hs
          obtain ⟨t, ht, hput⟩ := List.mem_filterMap.mp hs
          unfold put_nowait at hput
          split at hput
          · cases hput
            simpa using by omega
          · cases hput
        exact ih (broadcast_event e subs) h1
  · intro e subs
    induction subs with
    | nil => rfl
    | cons t ts ih =>
        by_cases ht : t.queue.length < t.maxsize
        · simp [broadcast_event, put_nowait, ht, List.filterMap_cons, List.filter_cons] at ih ⊢
          exact ih
        · simp [broadcast_event, put_nowait, ht, List.filterMap_cons, List.filter_cons] at ih ⊢
          exact ih

/-- C8 (witness): three broadcasts into a capacity-5 subscriber leave it
with three queued events, within its bound. -/
theorem C8_bounded_broadcast_witness :
    ({ queue := [e0, e0, e0], maxsize := 5 } : Subscriber).queue.length
      ≤ ({ queue := [e0, e0, e0], maxsize := 5 } : Subscriber).maxsize :=
  C8_bounded_broadcast.1 [e0, e0, e0] [sub0] (by decide) _ (by decide)

/-- Splitting the situation contribution sum around one list element. -/
theorem sitSum_append_cons (A B : List TrafficSituation) (x : TrafficSituation) :
    ((situationContribs (A ++ x :: B)).map Prod.fst).sum
      = ((situationContribs A).map Prod.fst).sum
        + (if 0 < get_situation_delay x.severity then ((get_situation_delay x.severity : ℚ)) else 0)
        + ((situationContribs B).map Prod.fst).sum := by
  unfold situationContribs
  rw [List.filterMap_append, List.filterMap_cons]
  by_cases hx : 0 < get_situation_delay x.severity
  · simp only [hx, if_true, if_pos hx]
    simp
    ring
  · simp only [hx, if_false, if_neg hx]
    simp

/-- Replacing one cached situation by one with the same coordinates and a
larger severity bucket never lowers the accumulated delay. -/
theorem accumulatedDelay_replace_le (dist : ℚ → ℚ → ℚ → ℚ → ℚ)
    (cl : List TrafficLightStatus) (err : Bool) (leg : TripLeg)
    (pre post : List TrafficSituation) {s s' : TrafficSituation}
    (hla : s'.latitude = s.latitude) (hlo : s'.longitude = s.longitude)
    (hcs : get_situation_delay s.severity = RULES.situation_minor)
    (hcs' : get_situation_delay s'.severity = RULES.situation_severe) :
    accumulatedDelay dist (pre ++ s :: post) cl err leg
      ≤ accumulatedDelay dist (pre ++ s' :: post) cl err leg := by
  unfold accumulatedDelay matchedTraffic
  by_cases hrp : collectRoutePoints leg = []
  · simp [hrp]
  · by_cases herr : err = true
    · simp [hrp, herr]
    · simp only [if_neg hrp, if_neg herr]
      unfold get_traffic_near_route
      simp only []
      have hpp : situationNearRoute dist (collectRoutePoints leg) (3/10) s'
          = situationNearRoute dist (collectRoutePoints leg) (3/10) s :=
        situationNearRoute_coords dist (collectRoutePoints leg) (3/10) hla hlo
      rw [List.filter_append, List.filter_append, List.filter_cons, List.filter_cons, hpp]
      by_cases hm : situationNearRoute dist (collectRoutePoints leg) (3/10) s = true
      · rw [if_pos hm, if_pos hm, sitSum_append_cons, sitSum_append_cons, hcs, hcs']
        norm_num [RULES.situation_minor, RULES.situation_severe]
      · rw [if_neg hm, if_neg hm]

/-- C6: with everything else fixed, replacing one situation of the feed
(bucketed minor) by one at the same location bucketed severe never
decreases the predicted delay, and the per-severity increments are
non-negative with severe above moderate above minor. -/
theorem C6_monotonic_in_severity :
    ∀ (dist : ℚ → ℚ → ℚ → ℚ → ℚ) (cl : List TrafficLightStatus) (err : Bool)
      (leg : TripLeg) (pre post : List TrafficSituation) (s s' : TrafficSituation),
      s'.latitude = s.latitude → s'.longitude = s.longitude →
      get_situation_delay s.severity = RULES.situation_minor →
      get_situation_delay s'.severity = RULES.situation_severe →
      predictedDelayOf (predict_delay_for_leg dist (pre ++ s :: post) cl err leg)
        ≤ predictedDelayOf (predict_delay_for_leg dist (pre ++ s' :: post) cl err leg)
      ∧ 0 ≤ RULES.situation_minor
      ∧ RULES.situation_minor < RULES.situation_moderate
      ∧ RULES.situation_moderate < RULES.situation_severe := by
  intro dist cl err leg pre post s s' hla hlo hcs hcs'
  refine ⟨?_, by decide, by decide, by decide⟩
  by_cases hmode : leg.mode = TransportMode.bus ∨ leg.mode = TransportMode.tram
  · rw [predict_delay_for_leg_eq dist (pre ++ s :: post) cl err leg hmode,
        predict_delay_for_leg_eq dist (pre ++ s' :: post) cl err leg hmode]
    simp only [predictedDelayOf]
    exact delayFinal_mono _ (accumulatedDelay_replace_le dist cl err leg pre post hla hlo hcs hcs')
  · unfold predict_delay_for_leg
    rw [if_neg hmode, if_neg hmode]

/-- C6 (witness): the statement at the concrete bus leg with a matched
minor situation against a matched severe one at the same spot. -/
theorem C6_monotonic_in_severity_witness :
    predictedDelayOf (predict_delay_for_leg dist0 ([] ++ sMinor :: []) [] false legC4)
      ≤ predictedDelayOf (predict_delay_for_leg dist0 ([] ++ sSevere :: []) [] false legC4)
    ∧ 0 ≤ RULES.situation_minor
    ∧ RULES.situation_minor < RULES.situation_moderate
    ∧ RULES.situation_moderate < RULES.situation_severe :=
  C6_monotonic_in_severity dist0 [] false legC4 [] [] sMinor sSevere rfl rfl
    (by decide) (by decide)
